import Mathlib

/-!
Verification of the process-bridge subsystem of the Bifrost repository
(src/bifrost/py_nodejs.py) against its natural-language specification.

The embedding models, directly from the source:
  * the wire framing produced by Node.write (header construction via
    Python hex()/zfill and the oversized-message / broken-pipe handling),
  * the per-line classification loop of the NodeSTDProc background monitor,
  * the lock discipline of every access to the shared NODE_IS_RUNNING flag,
  * the wait loop of Node.run with timeout and KeyboardInterrupt handling,
  * the variable merge performed after a run, and the CPython semantics of
    the mutable default argument of Node.run.

Machine integers do not arise: Python integers are unbounded, so Nat is the
faithful carrier for lengths and counters.
-/

namespace Bifrost

/-! ### Hexadecimal header machinery (Node.write, lines 330-346)

Node.write computes msg_length_hex = hex(msg_length_int), strips the 0x,
left-pads with zeros to 8 characters and wraps the result in the letters E
and C.  Python hex() produces the minimal lowercase hexadecimal expansion,
most significant digit first, and hex(0) gives the single digit 0. -/

/-- Value of one lowercase hexadecimal digit character, inverse of
Nat.digitChar on digits below 16 (0-9, a-f). -/
def hexVal (c : Char) : Nat :=
  if 97 ≤ c.toNat then c.toNat - 87 else c.toNat - 48

/-- Recognizer for the characters Python hex() can emit: 0-9 and a-f. -/
def isLowerHexDigit (c : Char) : Bool :=
  (48 ≤ c.toNat && c.toNat ≤ 57) || (97 ≤ c.toNat && c.toNat ≤ 102)

/-- Fuel-indexed helper for natToHex; the fuel only serves structural
recursion and n + 1 units always suffice. -/
def natToHexAux : Nat → Nat → List Char
  | 0, _ => []
  | fuel + 1, n =>
    if n < 16 then [Nat.digitChar n]
    else natToHexAux fuel (n / 16) ++ [Nat.digitChar (n % 16)]

/-- Minimal lowercase hexadecimal expansion of a natural number, most
significant digit first: the model of Python str(hex(n))[2:]. -/
def natToHex (n : Nat) : List Char :=
  natToHexAux (n + 1) n

/-- Left-pad a digit string with zero characters to width w: the model of
Python str.zfill(w) on a string of digits. -/
def zfill (w : Nat) (l : List Char) : List Char :=
  List.replicate (w - l.length) '0' ++ l

/-- Big-endian decoding of a hexadecimal digit string. -/
def fromHexDigits (l : List Char) : Nat :=
  l.foldl (fun a c => 16 * a + hexVal c) 0

/-! ### UTF-8 encoding (model of Python str.encode on the outgoing string) -/

/-- UTF-8 byte sequence of one character, exactly the encoding Python
str.encode applies code point by code point. -/
def utf8EncodeChar (c : Char) : List Nat :=
  let n := c.toNat
  if n < 128 then [n]
  else if n < 2048 then [192 + n / 64, 128 + n % 64]
  else if n < 65536 then [224 + n / 4096, 128 + n / 64 % 64, 128 + n % 64]
  else [240 + n / 262144, 128 + n / 4096 % 64, 128 + n / 64 % 64, 128 + n % 64]

/-- UTF-8 byte sequence of a character list. -/
def utf8Encode (l : List Char) : List Nat :=
  (l.map utf8EncodeChar).flatten

/-! ### Frame construction and Node.write (py_nodejs.py lines 325-364)

Node.write builds msg_json = json.dumps with the single key script; that
marshalling is an external collaborator, so the payload enters the model as
the list of characters of msg_json.  json.dumps escapes every non-ASCII
character by default (ensure_ascii), so the payload is ASCII and its Python
string length len(msg_json) coincides with its UTF-8 byte length; the
source computes the header from len(msg_json).

Control flow of the source: inside one try block it computes the length,
raises when len(msg_length_str) > 8 or msg_length_int >= 16**8, otherwise
writes header plus payload UTF-8 encoded and flushes.  The except handler
(reached both by the oversized raise and by any I/O error) calls
self.cancel() - whose restart parameter defaults to True, so the node
process is killed and a fresh one spawned - then sets NODE_IS_RUNNING to
False under the write lock and returns -1.  Success returns 1. -/

/-- Header of a frame: the letter E, the hexadecimal length zero-padded to
eight digits, the letter C (line 345 of the source). -/
def msgHead (msgLen : Nat) : List Char :=
  'E' :: (zfill 8 (natToHex msgLen) ++ ['C'])

/-- Outcome of one call to Node.write. -/
structure WriteResult where
  retCode : Int
  written : List Nat
  cancelled : Bool
  restarted : Bool
  forcedRunningFalse : Bool
  deriving Repr, DecidableEq

/-- Model of Node.write.  The payload is the character list of msg_json;
ioError models an exception raised by stdin.write or stdin.flush (for
example a broken pipe).  Both failure paths run the same except handler:
cancel with restart, force the running flag to False under the write lock,
return -1. -/
def nodeWrite (payload : List Char) (ioError : Bool) : WriteResult :=
  if 8 < (natToHex payload.length).length ∨ 16 ^ 8 ≤ payload.length then
    { retCode := -1, written := [], cancelled := true, restarted := true,
      forcedRunningFalse := true }
  else if ioError then
    { retCode := -1, written := [], cancelled := true, restarted := true,
      forcedRunningFalse := true }
  else
    { retCode := 1,
      written := utf8Encode (msgHead payload.length ++ payload),
      cancelled := false, restarted := false, forcedRunningFalse := false }

/-! ### The background monitor NodeSTDProc.run (py_nodejs.py lines 152-188)

Per iteration the monitor reads one line, then:
  * process.poll() is not None (process exited): acquire write lock, set
    NODE_IS_RUNNING = False, release, break out of the loop;
  * the line is the empty string: continue;
  * json.loads succeeds and the value under the key type equals done:
    acquire write lock, set NODE_IS_RUNNING = False, release, continue;
  * json.loads succeeds with any other type value: print the stripped line
    when it has a non-whitespace character, continue;
  * json.loads (or the indexing by the key type) raises: print the stripped
    line when it has a non-whitespace character, continue.
The print guard in the source is: output and len(output.strip()) > 0. -/

/-- Result of attempting json.loads(line) followed by indexing the key
type: ok t when both succeed with a string value t, fail when either step
raises (unparseable text, non-object value, missing key). -/
inductive ParseOutcome where
  | ok (t : String)
  | fail
  deriving Repr, DecidableEq

/-- Observable effect of one monitor iteration. -/
structure MonitorStepResult where
  runningAfter : Bool
  printed : Bool
  breaks : Bool
  usedWriteLock : Bool
  deriving Repr, DecidableEq

/-- Condition len(s.strip()) > 0 of the source: some character of s is not
whitespace. -/
def hasNonWhitespace (s : String) : Bool :=
  s.data.any fun c => !c.isWhitespace

/-- One iteration of NodeSTDProc.run after the readline, acting on the raw
line, its parse outcome, the poll result (exited) and the current value of
the shared running flag. -/
def monitorStep (exited : Bool) (raw : String) (parse : ParseOutcome)
    (running : Bool) : MonitorStepResult :=
  if exited then
    { runningAfter := false, printed := false, breaks := true,
      usedWriteLock := true }
  else if raw = "" then
    { runningAfter := running, printed := false, breaks := false,
      usedWriteLock := false }
  else
    match parse with
    | .ok t =>
      if t = "done" then
        { runningAfter := false, printed := false, breaks := false,
          usedWriteLock := true }
      else
        { runningAfter := running, printed := hasNonWhitespace raw,
          breaks := false, usedWriteLock := false }
    | .fail =>
      { runningAfter := running, printed := hasNonWhitespace raw,
        breaks := false, usedWriteLock := false }

/-- Caller-visible shared state after a monitor iteration.  NODE_IS_RUNNING
is the only variable NodeSTDProc.run shares with Node.run: the monitor
communicates with the coordinator exclusively by writing this flag under
NODE_LOCK, so this is everything a caller can observe of the monitor. -/
def callerVisibleRunState (r : MonitorStepResult) : Bool :=
  r.runningAfter

/-! ### Lock discipline of the shared flag (global NODE_IS_RUNNING)

Static transcription of every textual access to NODE_IS_RUNNING in
py_nodejs.py, each annotated with the source line and the NODE_LOCK mode
held at that program point.  Initializers (line 25) are module load, before
any concurrency, and are not an operation of the claims. -/

/-- Lock mode held at a program point: none, read side, or write side. -/
inductive Hold where
  | free
  | rd
  | wr
  deriving Repr, DecidableEq

/-- One textual access to the shared running flag. -/
structure FlagAccess where
  line : Nat
  isWrite : Bool
  held : Hold
  deriving Repr, DecidableEq

/-- Accesses inside Node.run: the dispatch set-true at line 279 (between
acquire_write at 278 and release_write at 280), the pre-loop sample at line
292 (no lock held), the loop sample at line 297 (between acquire_read at
296 and release_read at 298), the timeout force-false at line 303 and the
interrupt force-false at line 309 (each between acquire_write and
release_write). -/
def runFlagAccesses : List FlagAccess :=
  [{ line := 279, isWrite := true,  held := .wr },
   { line := 292, isWrite := false, held := .free },
   { line := 297, isWrite := false, held := .rd },
   { line := 303, isWrite := true,  held := .wr },
   { line := 309, isWrite := true,  held := .wr }]

/-- Access inside the except handler of Node.write: the force-false at line
361 between acquire_write at 360 and release_write at 362. -/
def writeFlagAccesses : List FlagAccess :=
  [{ line := 361, isWrite := true, held := .wr }]

/-- Access inside Node.clean_lock: line 321 assigns NODE_IS_RUNNING = False
without acquiring NODE_LOCK (line 322 then replaces the lock object
itself). -/
def cleanLockFlagAccesses : List FlagAccess :=
  [{ line := 321, isWrite := true, held := .free }]

/-- Accesses inside NodeSTDProc.run: the exit-path set-false at line 163
and the done-path set-false at line 177, each between acquire_write and
release_write. -/
def monitorFlagAccesses : List FlagAccess :=
  [{ line := 163, isWrite := true, held := .wr },
   { line := 177, isWrite := true, held := .wr }]

/-- Every access to the shared running flag across the four operations. -/
def allFlagAccesses : List FlagAccess :=
  runFlagAccesses ++ writeFlagAccesses ++ cleanLockFlagAccesses ++
    monitorFlagAccesses

/-- An access respects the lock discipline when a write holds the write
side and a read holds the read or write side. -/
def guarded (a : FlagAccess) : Bool :=
  match a.held with
  | .wr => true
  | .rd => !a.isWrite
  | .free => false

/-! ### The wait loop of Node.run (py_nodejs.py lines 288-312)

State shared with, or local to, the wait loop.  Process ids are modelled by
a fresh counter: init_process spawns a new OS process whose pid differs
from the still-unreaped previous one, so each restart takes the next value
of nextPid, and the invariant pid < nextPid makes restarted pids fresh. -/

/-- State of the coordinator during the wait loop: the local variable flag,
the shared running flag, the current node process pid, the fresh-pid
counter, and how many times cancel has run. -/
structure WaitState where
  flag : Bool
  running : Bool
  pid : Nat
  nextPid : Nat
  cancels : Nat
  deriving Repr, DecidableEq

/-- Effect of Node.cancel with restart=True: kill the process, stop the
monitor, spawn a fresh process with a fresh pid. -/
def cancelRestart (s : WaitState) : WaitState :=
  { s with
    pid := s.nextPid
    nextPid := s.nextPid + 1
    cancels := s.cancels + 1 }

/-- Result of the wait loop: normal exit with the iteration index at which
the while condition failed, KeyboardInterrupt re-raised after its handler,
or fuel exhaustion (model artifact for the unbounded source loop). -/
inductive WaitOutcome where
  | finished (s : WaitState) (iters : Nat)
  | interrupted (s : WaitState) (iters : Nat)
  | fuelOut (s : WaitState)
  deriving Repr, DecidableEq

/-- One iteration of the body of the while loop (lines 295-312): under the
read lock sample the shared flag into the local flag (the monitor may have
cleared the shared flag just before the sample: input clear); if a timeout
is configured and elapsed time t strictly exceeds it, run cancel(restart),
then force the shared flag false under the write lock.  A KeyboardInterrupt
(input intr) preempts the body: its handler runs cancel(restart), forces
the shared flag false under the write lock, and re-raises (second component
true). -/
def waitStep (tmax : Option Nat) (t : Nat) (clear intr : Bool)
    (s : WaitState) : WaitState × Bool :=
  if intr then
    ({ cancelRestart s with running := false }, true)
  else
    let running1 := s.running && !clear
    let s1 := { s with running := running1, flag := running1 }
    match tmax with
    | none => (s1, false)
    | some T => if T < t then ({ cancelRestart s1 with running := false }, false)
      else (s1, false)

/-- The while loop at line 294: while flag, run the body; on interruption
propagate.  Iteration i samples elapsed time elapsed i; clears i tells
whether the monitor cleared the shared flag before the sample of iteration
i, intr i whether a KeyboardInterrupt arrives in iteration i. -/
def waitLoop (tmax : Option Nat) (elapsed : Nat → Nat)
    (clears intr : Nat → Bool) : Nat → Nat → WaitState → WaitOutcome
  | 0, _, s => .fuelOut s
  | fuel + 1, i, s =>
    if s.flag then
      match waitStep tmax (elapsed i) (clears i) (intr i) s with
      | (s1, true) => .interrupted s1 (i + 1)
      | (s1, false) => waitLoop tmax elapsed clears intr fuel (i + 1) s1
    else .finished s i

/-! ### Variable sets and the merge after a run (lines 313-316)

Python dict semantics at the lookup level: a mapping from names to optional
values.  The loop for key in new_vars.keys(): vars[key] = new_vars[key]
rewrites exactly the keys present in new_vars and leaves the rest. -/

/-- Mapping of variable names to values, the lookup view of a Python
dict. -/
def VarMap (α : Type) : Type :=
  String → Option α

/-- Empty variable set. -/
def VarMap.emp {α : Type} : VarMap α :=
  fun _ => none

/-- Store one binding. -/
def VarMap.update {α : Type} (m : VarMap α) (k : String) (v : α) : VarMap α :=
  fun q => if q = k then some v else m q

/-- The merge loop of lines 314-315: every key present in newVars is
overwritten into vars, every other key keeps its binding in vars. -/
def mergeVars {α : Type} (vars newVars : VarMap α) : VarMap α :=
  fun k =>
    match newVars k with
    | some v => some v
    | none => vars k

/-! ### Node.run (py_nodejs.py lines 263-316)

After syncto (external collaborator) the coordinator sets the shared flag
true under the write lock, calls write, and returns None early when the
return code is negative (lines 284-286) - in that case write's except
handler has already cancelled-and-restarted the process and forced the
flag false, and neither the wait loop nor syncfrom runs.  Otherwise the
local flag is sampled (line 292, the shared flag is still true at that
sequential point) and the wait loop runs; a KeyboardInterrupt re-raises
out of run so syncfrom is skipped; a normal loop exit falls through to
syncfrom, whose result (input pulledVars, external collaborator) is merged
into vars and returned. -/

/-- Outcome of Node.run as seen by the caller: the merged variable dict, a
None return after a failed write, a re-raised KeyboardInterrupt, or fuel
exhaustion (model artifact). -/
inductive RunOutcome (α : Type) where
  | ok (vars : VarMap α)
  | writeFailed
  | interrupted
  | outOfFuel

/-- Final state of one call to Node.run.  iters records the loop iteration
at which the wait ended (0 when the wait loop never ran). -/
structure RunResult (α : Type) where
  outcome : RunOutcome α
  running : Bool
  pid : Nat
  cancels : Nat
  pulled : Bool
  iters : Nat

/-- Model of Node.run.  pid0 is the pid of the node process at entry;
pulledVars is what syncfrom would return; pulled records whether syncfrom
ran. -/
def nodeRun {α : Type} (payload : List Char) (ioError : Bool)
    (tmax : Option Nat) (elapsed : Nat → Nat) (clears intr : Nat → Bool)
    (fuel : Nat) (pid0 : Nat) (vars pulledVars : VarMap α) : RunResult α :=
  let w := nodeWrite payload ioError
  if w.retCode < 0 then
    { outcome := .writeFailed, running := false,
      pid := if w.restarted then pid0 + 1 else pid0,
      cancels := if w.cancelled then 1 else 0, pulled := false, iters := 0 }
  else
    match waitLoop tmax elapsed clears intr fuel 0
        { flag := true, running := true, pid := pid0, nextPid := pid0 + 1,
          cancels := 0 } with
    | .interrupted s n =>
      { outcome := .interrupted, running := s.running, pid := s.pid,
        cancels := s.cancels, pulled := false, iters := n }
    | .finished s n =>
      { outcome := .ok (mergeVars vars pulledVars), running := s.running,
        pid := s.pid, cancels := s.cancels, pulled := true, iters := n }
    | .fuelOut s =>
      { outcome := .outOfFuel, running := s.running, pid := s.pid,
        cancels := s.cancels, pulled := false, iters := fuel }

/-- Model of a call to Node.run that omits the vars argument.  CPython
evaluates the default expression vars = {} once, at function definition
time, and binds the same dict object on every later defaulted call; the
merge loop mutates that object in place and run returns it.  The second
component is the default object's content after the call. -/
def nodeRunDefault {α : Type} (payload : List Char) (ioError : Bool)
    (tmax : Option Nat) (elapsed : Nat → Nat) (clears intr : Nat → Bool)
    (fuel : Nat) (pid0 : Nat) (defaultVars pulledVars : VarMap α) :
    RunResult α × VarMap α :=
  let r := nodeRun payload ioError tmax elapsed clears intr fuel pid0
    defaultVars pulledVars
  match r.outcome with
  | .ok merged => (r, merged)
  | _ => (r, defaultVars)

/-! ## Theorems -/

/-! ### Hexadecimal digits: round trip, length, character set -/

theorem natToHexAux_fuel : ∀ n fuel fuel2, n < fuel → n < fuel2 →
    natToHexAux fuel n = natToHexAux fuel2 n := by
  intro n
  induction n using Nat.strong_induction_on with
  | _ n ih =>
    intro fuel fuel2 h h2
    obtain ⟨f, rfl⟩ : ∃ f, fuel = f + 1 := ⟨fuel - 1, by omega⟩
    obtain ⟨f2, rfl⟩ : ∃ g, fuel2 = g + 1 := ⟨fuel2 - 1, by omega⟩
    rw [show natToHexAux (f + 1) n = if n < 16 then [Nat.digitChar n]
      else natToHexAux f (n / 16) ++ [Nat.digitChar (n % 16)] from rfl]
    rw [show natToHexAux (f2 + 1) n = if n < 16 then [Nat.digitChar n]
      else natToHexAux f2 (n / 16) ++ [Nat.digitChar (n % 16)] from rfl]
    by_cases h16 : n < 16
    · rw [if_pos h16, if_pos h16]
    · rw [if_neg h16, if_neg h16,
        ih (n / 16) (by omega) f f2 (by omega) (by omega)]

theorem natToHex_eq (n : Nat) :
    natToHex n = if n < 16 then [Nat.digitChar n]
      else natToHex (n / 16) ++ [Nat.digitChar (n % 16)] := by
  rw [show natToHex n = natToHexAux (n + 1) n from rfl]
  rw [show natToHexAux (n + 1) n = if n < 16 then [Nat.digitChar n]
    else natToHexAux n (n / 16) ++ [Nat.digitChar (n % 16)] from rfl]
  by_cases h16 : n < 16
  · rw [if_pos h16, if_pos h16]
  · rw [if_neg h16, if_neg h16,
      natToHexAux_fuel (n / 16) n (n / 16 + 1) (by omega) (by omega)]
    rfl

theorem hexVal_digitChar : ∀ d, d < 16 → hexVal (Nat.digitChar d) = d := by
  decide

theorem isLowerHexDigit_digitChar : ∀ d, d < 16 →
    isLowerHexDigit (Nat.digitChar d) = true := by
  decide

theorem fromHexDigits_append_singleton (l : List Char) (c : Char) :
    fromHexDigits (l ++ [c]) = 16 * fromHexDigits l + hexVal c := by
  simp [fromHexDigits, List.foldl_append]

theorem fromHexDigits_natToHex (n : Nat) : fromHexDigits (natToHex n) = n := by
  induction n using Nat.strong_induction_on with
  | _ n ih =>
    rw [natToHex_eq]
    by_cases h : n < 16
    · rw [if_pos h]
      simp [fromHexDigits, hexVal_digitChar n h]
    · rw [if_neg h]
      rw [fromHexDigits_append_singleton,
        ih (n / 16) (Nat.div_lt_self (by omega) (by omega)),
        hexVal_digitChar (n % 16) (Nat.mod_lt n (by omega))]
      omega

theorem natToHex_length_le (k : Nat) (hk : 1 ≤ k) :
    ∀ n, n < 16 ^ k → (natToHex n).length ≤ k := by
  induction k with
  | zero => omega
  | succ k ih =>
    intro n hn
    rw [natToHex_eq]
    by_cases h : n < 16
    · rw [if_pos h]
      simp
    · rw [if_neg h]
      rw [List.length_append, List.length_singleton]
      have hk1 : 1 ≤ k := by
        by_contra hc
        have : k = 0 := by omega
        subst this
        simp [pow_succ, pow_zero] at hn
        omega
      have hdiv : n / 16 < 16 ^ k := by
        rw [Nat.div_lt_iff_lt_mul (by omega : (0:Nat) < 16)]
        calc n < 16 ^ (k + 1) := hn
          _ = 16 ^ k * 16 := by rw [pow_succ]
      have := ih hk1 (n / 16) hdiv
      omega

theorem natToHex_mem_hex (n : Nat) :
    ∀ c ∈ natToHex n, isLowerHexDigit c = true := by
  induction n using Nat.strong_induction_on with
  | _ n ih =>
    intro c hc
    rw [natToHex_eq] at hc
    by_cases h : n < 16
    · rw [if_pos h] at hc
      rw [List.mem_singleton] at hc
      subst hc
      exact isLowerHexDigit_digitChar n h
    · rw [if_neg h] at hc
      rw [List.mem_append, List.mem_singleton] at hc
      rcases hc with hc | hc
      · exact ih (n / 16) (Nat.div_lt_self (by omega) (by omega)) c hc
      · subst hc
        exact isLowerHexDigit_digitChar (n % 16) (Nat.mod_lt n (by omega))

theorem fromHexDigits_zfill (w : Nat) (l : List Char) :
    fromHexDigits (zfill w l) = fromHexDigits l := by
  unfold zfill fromHexDigits
  rw [List.foldl_append]
  congr 1
  generalize w - l.length = k
  induction k with
  | zero => rfl
  | succ k ih => simpa [List.replicate_succ, hexVal] using ih

theorem zfill_length (w : Nat) (l : List Char) (h : l.length ≤ w) :
    (zfill w l).length = w := by
  simp [zfill]
  omega

theorem zfill_mem_hex (w : Nat) (l : List Char)
    (h : ∀ c ∈ l, isLowerHexDigit c = true) :
    ∀ c ∈ zfill w l, isLowerHexDigit c = true := by
  intro c hc
  rcases List.mem_append.mp hc with hc | hc
  · rw [List.eq_of_mem_replicate hc]
    decide
  · exact h c hc

/-! ### UTF-8 facts -/

theorem utf8Encode_append (a b : List Char) :
    utf8Encode (a ++ b) = utf8Encode a ++ utf8Encode b := by
  simp [utf8Encode]

theorem utf8Encode_ascii (l : List Char) (h : ∀ c ∈ l, c.toNat < 128) :
    utf8Encode l = l.map Char.toNat := by
  induction l with
  | nil => rfl
  | cons c cs ih =>
    have hc := h c (List.mem_cons_self c cs)
    simp only [utf8Encode, List.map_cons, List.flatten_cons] at *
    rw [ih fun x hx => h x (List.mem_cons_of_mem c hx)]
    simp [utf8EncodeChar, hc]

theorem utf8Encode_ascii_length (l : List Char) (h : ∀ c ∈ l, c.toNat < 128) :
    (utf8Encode l).length = l.length := by
  rw [utf8Encode_ascii l h, List.length_map]

theorem isLowerHexDigit_ascii (c : Char) (h : isLowerHexDigit c = true) :
    c.toNat < 128 := by
  simp [isLowerHexDigit] at h
  omega

theorem msgHead_ascii (msgLen : Nat) : ∀ c ∈ msgHead msgLen, c.toNat < 128 := by
  intro c hc
  rcases List.mem_cons.mp hc with hc | hc
  · subst hc; decide
  · rcases List.mem_append.mp hc with hc | hc
    · exact isLowerHexDigit_ascii c
        (zfill_mem_hex 8 _ (natToHex_mem_hex msgLen) c hc)
    · rw [List.mem_singleton] at hc
      subst hc; decide

/-! ### Claim theorems -/

theorem nodeWrite_ok (payload : List Char) (hLen : payload.length < 16 ^ 8)
    (ioError : Bool) :
    nodeWrite payload ioError =
      if ioError then
        { retCode := -1, written := [], cancelled := true, restarted := true,
          forcedRunningFalse := true }
      else
        { retCode := 1,
          written := utf8Encode (msgHead payload.length ++ payload),
          cancelled := false, restarted := false,
          forcedRunningFalse := false } := by
  have h8 : (natToHex payload.length).length ≤ 8 :=
    natToHex_length_le 8 (by omega) payload.length hLen
  rw [nodeWrite, if_neg (by omega)]

/-- C1: for every script whose structured payload has byte length
L < 16^8, the frame written to the node process stdin is exactly a 10-byte
header - the byte E, eight lowercase zero-padded hexadecimal digit bytes
decoding to L, the byte C - followed by the UTF-8 payload itself, whose
byte length is L.  The ASCII hypothesis on the payload characters holds for
every payload Node.write builds, because json.dumps escapes non-ASCII
characters by default. -/
theorem frame_header_exact (payload : List Char)
    (hAscii : ∀ c ∈ payload, c.toNat < 128)
    (hLen : payload.length < 16 ^ 8) :
    (nodeWrite payload false).retCode = 1 ∧
    ∃ ds : List Char,
      ds.length = 8 ∧
      (∀ c ∈ ds, isLowerHexDigit c = true) ∧
      fromHexDigits ds = (utf8Encode payload).length ∧
      (nodeWrite payload false).written =
        ('E'.toNat :: ds.map Char.toNat ++ ['C'.toNat]) ++
          utf8Encode payload ∧
      ('E'.toNat :: ds.map Char.toNat ++ ['C'.toNat]).length = 10 := by
  rw [nodeWrite_ok payload hLen false]
  refine ⟨rfl, zfill 8 (natToHex payload.length), ?_, ?_, ?_, ?_, ?_⟩
  · exact zfill_length 8 _ (natToHex_length_le 8 (by omega) _ hLen)
  · exact zfill_mem_hex 8 _ (natToHex_mem_hex _)
  · rw [fromHexDigits_zfill, fromHexDigits_natToHex,
      utf8Encode_ascii_length payload hAscii]
  · show utf8Encode (msgHead payload.length ++ payload) = _
    rw [utf8Encode_append, utf8Encode_ascii _ (msgHead_ascii _)]
    simp [msgHead]
  · simp [zfill_length 8 _ (natToHex_length_le 8 (by omega) _ hLen)]

/-- Witness for frame_header_exact at the payload json.dumps produces for
the script 1+1. -/
theorem frame_header_exact_witness :
    (∀ c ∈ ['{', '"', 's', 'c', 'r', 'i', 'p', 't', '"', ':', ' ', '"',
        '1', '+', '1', '"', '}'], c.toNat < 128) ∧
    (['{', '"', 's', 'c', 'r', 'i', 'p', 't', '"', ':', ' ', '"',
        '1', '+', '1', '"', '}'] : List Char).length < 16 ^ 8 ∧
    ((nodeWrite ['{', '"', 's', 'c', 'r', 'i', 'p', 't', '"', ':', ' ', '"',
        '1', '+', '1', '"', '}'] false).retCode = 1 ∧
      ∃ ds : List Char,
        ds.length = 8 ∧
        (∀ c ∈ ds, isLowerHexDigit c = true) ∧
        fromHexDigits ds =
          (utf8Encode ['{', '"', 's', 'c', 'r', 'i', 'p', 't', '"', ':',
            ' ', '"', '1', '+', '1', '"', '}']).length ∧
        (nodeWrite ['{', '"', 's', 'c', 'r', 'i', 'p', 't', '"', ':', ' ',
            '"', '1', '+', '1', '"', '}'] false).written =
          ('E'.toNat :: ds.map Char.toNat ++ ['C'.toNat]) ++
            utf8Encode ['{', '"', 's', 'c', 'r', 'i', 'p', 't', '"', ':',
              ' ', '"', '1', '+', '1', '"', '}'] ∧
        ('E'.toNat :: ds.map Char.toNat ++ ['C'.toNat]).length = 10) :=
  ⟨by decide, by norm_num,
    frame_header_exact _ (by decide) (by norm_num)⟩

theorem nodeWrite_oversized (payload : List Char)
    (h : 16 ^ 8 ≤ payload.length) (ioError : Bool) :
    nodeWrite payload ioError =
      { retCode := -1, written := [], cancelled := true, restarted := true,
        forcedRunningFalse := true } := by
  rw [nodeWrite, if_pos (Or.inr h)]

/-- C3 counterexample: at a payload of length 16^8 the claim that no
restart of the companion process is performed is false - the oversized
raise lands in the generic except handler of Node.write, which calls
self.cancel() with its default restart=True, so the process is killed and
a fresh one spawned (even though, as the claim also says, no bytes were
written). -/
theorem oversized_counterexample :
    (nodeWrite (List.replicate (16 ^ 8) 'a') false).restarted = true ∧
    (nodeWrite (List.replicate (16 ^ 8) 'a') false).cancelled = true ∧
    (nodeWrite (List.replicate (16 ^ 8) 'a') false).written = [] := by
  rw [nodeWrite_oversized _ (by rw [List.length_replicate]) false]
  exact ⟨rfl, rfl, rfl⟩

/-- C3 amended: for every payload of length at least 16^8 the dispatch
fails before any bytes are written (empty write, return code -1), the run
is aborted pre-write with no wait and no variable pull, and the companion
process IS cancelled and restarted by the shared except handler. -/
theorem oversized_aborts_prewrite_restarts {α : Type} (payload : List Char)
    (h : 16 ^ 8 ≤ payload.length) (ioError : Bool) (tmax : Option Nat)
    (elapsed : Nat → Nat) (clears intr : Nat → Bool) (fuel pid0 : Nat)
    (vars pulledVars : VarMap α) :
    (nodeWrite payload ioError).written = [] ∧
    (nodeWrite payload ioError).retCode = -1 ∧
    (nodeWrite payload ioError).restarted = true ∧
    (nodeRun payload ioError tmax elapsed clears intr fuel pid0 vars
        pulledVars).outcome = RunOutcome.writeFailed ∧
    (nodeRun payload ioError tmax elapsed clears intr fuel pid0 vars
        pulledVars).pulled = false ∧
    (nodeRun payload ioError tmax elapsed clears intr fuel pid0 vars
        pulledVars).pid = pid0 + 1 := by
  have hw := nodeWrite_oversized payload h ioError
  refine ⟨by rw [hw], by rw [hw], by rw [hw], ?_, ?_, ?_⟩ <;>
    simp [nodeRun, hw]

/-- Witness for oversized_aborts_prewrite_restarts at a payload of length
exactly 16^8. -/
theorem oversized_aborts_prewrite_restarts_witness :
    16 ^ 8 ≤ (List.replicate (16 ^ 8) 'a').length ∧
    ((nodeWrite (List.replicate (16 ^ 8) 'a') false).written = [] ∧
      (nodeWrite (List.replicate (16 ^ 8) 'a') false).retCode = -1 ∧
      (nodeWrite (List.replicate (16 ^ 8) 'a') false).restarted = true ∧
      (nodeRun (List.replicate (16 ^ 8) 'a') false none (fun _ => 0)
          (fun _ => false) (fun _ => false) 0 7 (VarMap.emp (α := Nat))
          VarMap.emp).outcome = RunOutcome.writeFailed ∧
      (nodeRun (List.replicate (16 ^ 8) 'a') false none (fun _ => 0)
          (fun _ => false) (fun _ => false) 0 7 (VarMap.emp (α := Nat))
          VarMap.emp).pulled = false ∧
      (nodeRun (List.replicate (16 ^ 8) 'a') false none (fun _ => 0)
          (fun _ => false) (fun _ => false) 0 7 (VarMap.emp (α := Nat))
          VarMap.emp).pid = 7 + 1) :=
  ⟨by rw [List.length_replicate],
    oversized_aborts_prewrite_restarts _ (by rw [List.length_replicate]) _ _
      _ _ _ _ _ _ _⟩

/-- C2 counterexample: the line consisting of a single newline character
is a nonempty output line that fails to parse as JSON, yet the monitor
does not forward it to observability output (the print guard
len(output.strip()) > 0 rejects it); the claim that every unparseable
line is forwarded is therefore false. -/
theorem monitor_whitespace_not_forwarded :
    ("\n" : String) ≠ "" ∧
    (monitorStep false "\n" ParseOutcome.fail true).printed = false ∧
    (monitorStep false "\n" ParseOutcome.fail true).runningAfter = true := by
  refine ⟨by decide, ?_, ?_⟩ <;> decide

/-- C2 amended: while the process is alive, a nonempty line whose parse
yields type done makes the monitor acquire the write lock, set running to
false, release, and continue; every other nonempty line (parsed with
another type, or unparseable) leaves the running flag untouched, takes no
lock, and is forwarded to observability output exactly when it contains a
non-whitespace character - whitespace-only lines are dropped silently. -/
theorem monitor_line_classification (raw : String) (parse : ParseOutcome)
    (running : Bool) (hraw : raw ≠ "") :
    (parse = ParseOutcome.ok "done" →
      monitorStep false raw parse running =
        { runningAfter := false, printed := false, breaks := false,
          usedWriteLock := true }) ∧
    (∀ t, parse = ParseOutcome.ok t → t ≠ "done" →
      monitorStep false raw parse running =
        { runningAfter := running, printed := hasNonWhitespace raw,
          breaks := false, usedWriteLock := false }) ∧
    (parse = ParseOutcome.fail →
      monitorStep false raw parse running =
        { runningAfter := running, printed := hasNonWhitespace raw,
          breaks := false, usedWriteLock := false }) := by
  refine ⟨?_, ?_, ?_⟩
  · rintro rfl
    simp [monitorStep, hraw]
  · rintro t rfl ht
    simp [monitorStep, hraw, ht]
  · rintro rfl
    simp [monitorStep, hraw]

/-- Witness for monitor_line_classification at a concrete unparseable
line with visible content. -/
theorem monitor_line_classification_witness :
    ("hello" : String) ≠ "" ∧
    ((ParseOutcome.fail = ParseOutcome.ok "done" →
      monitorStep false "hello" ParseOutcome.fail true =
        { runningAfter := false, printed := false, breaks := false,
          usedWriteLock := true }) ∧
    (∀ t, ParseOutcome.fail = ParseOutcome.ok t → t ≠ "done" →
      monitorStep false "hello" ParseOutcome.fail true =
        { runningAfter := true, printed := hasNonWhitespace "hello",
          breaks := false, usedWriteLock := false }) ∧
    (ParseOutcome.fail = ParseOutcome.fail →
      monitorStep false "hello" ParseOutcome.fail true =
        { runningAfter := true, printed := hasNonWhitespace "hello",
          breaks := false, usedWriteLock := false })) :=
  ⟨by decide, monitor_line_classification "hello" ParseOutcome.fail true
    (by decide)⟩

/-- C4 counterexample: the claim that the shared running flag is never
read or written without holding the lock is false on two concrete program
points: the pre-loop sample at line 292 of Node.run reads it with no lock
held, and line 321 of Node.clean_lock writes it with no lock held. -/
theorem flag_lock_discipline_counterexample :
    allFlagAccesses.all guarded = false ∧
    ({ line := 292, isWrite := false, held := Hold.free } : FlagAccess) ∈
      allFlagAccesses ∧
    guarded { line := 292, isWrite := false, held := Hold.free } = false ∧
    ({ line := 321, isWrite := true, held := Hold.free } : FlagAccess) ∈
      allFlagAccesses ∧
    guarded { line := 321, isWrite := true, held := Hold.free } = false := by
  refine ⟨?_, ?_, ?_, ?_, ?_⟩ <;> decide

/-- C4 amended: every access to the shared running flag in the
coordinator's run, the write-failure handler and the background monitor is
made under the appropriate side of the lock, with exactly two exceptions:
the pre-loop sample of Node.run (line 292, unlocked read) and the reset in
Node.clean_lock (line 321, unlocked write). -/
theorem flag_lock_discipline_amended :
    (allFlagAccesses.filter
      (fun a => a.line ≠ 292 && a.line ≠ 321)).all guarded = true ∧
    (allFlagAccesses.filter
      (fun a => a.line = 292 || a.line = 321)).all
        (fun a => !guarded a) = true := by
  exact ⟨by decide, by decide⟩

/-! ### Wait loop lemmas -/

theorem waitLoop_succ (tmax : Option Nat) (elapsed : Nat → Nat)
    (clears intr : Nat → Bool) (fuel i : Nat) (s : WaitState) :
    waitLoop tmax elapsed clears intr (fuel + 1) i s =
      if s.flag then
        match waitStep tmax (elapsed i) (clears i) (intr i) s with
        | (s1, true) => WaitOutcome.interrupted s1 (i + 1)
        | (s1, false) => waitLoop tmax elapsed clears intr fuel (i + 1) s1
      else WaitOutcome.finished s i := rfl

theorem waitLoop_flag_false (tmax : Option Nat) (elapsed : Nat → Nat)
    (clears intr : Nat → Bool) (fuel i : Nat) (s : WaitState)
    (h : s.flag = false) :
    waitLoop tmax elapsed clears intr (fuel + 1) i s =
      WaitOutcome.finished s i := by
  rw [waitLoop_succ]
  simp [h]

theorem waitStep_quiet (tmax : Option Nat) (t : Nat) (s : WaitState)
    (h : ∀ T, tmax = some T → t ≤ T) :
    waitStep tmax t false false s = ({ s with flag := s.running }, false) := by
  cases tmax with
  | none => simp [waitStep]
  | some T =>
    have hT := h T rfl
    simp [waitStep, Nat.not_lt.mpr hT]

theorem waitStep_timeout_hit (T t : Nat) (s : WaitState) (h : T < t) :
    waitStep (some T) t false false s =
      (⟨s.running, false, s.nextPid, s.nextPid + 1, s.cancels + 1⟩,
        false) := by
  simp [waitStep, cancelRestart, h]

theorem waitStep_intr (tmax : Option Nat) (t : Nat) (clear : Bool)
    (s : WaitState) :
    waitStep tmax t clear true s =
      (⟨s.flag, false, s.nextPid, s.nextPid + 1, s.cancels + 1⟩, true) := by
  simp [waitStep, cancelRestart]

theorem waitLoop_skip (tmax : Option Nat) (elapsed : Nat → Nat)
    (clears intr : Nat → Bool) (m : Nat) :
    ∀ (i fuel : Nat) (s : WaitState), s.flag = true → s.running = true →
    (∀ j, j < m → clears (i + j) = false ∧ intr (i + j) = false ∧
      (∀ T, tmax = some T → elapsed (i + j) ≤ T)) →
    waitLoop tmax elapsed clears intr (m + fuel) i s =
      waitLoop tmax elapsed clears intr fuel (i + m) s := by
  induction m with
  | zero =>
    intro i fuel s _ _ _
    rw [Nat.zero_add, Nat.add_zero]
  | succ m ih =>
    intro i fuel s hflag hrun hq
    obtain ⟨hc, hi, ht⟩ := hq 0 (by omega)
    rw [Nat.add_zero] at hc hi ht
    have hs : ({ s with flag := s.running } : WaitState) = s := by
      cases s
      simp only at hflag hrun
      simp [hflag, hrun]
    have step : waitLoop tmax elapsed clears intr (m + fuel + 1) i s =
        waitLoop tmax elapsed clears intr (m + fuel) (i + 1) s := by
      rw [waitLoop_succ, if_pos hflag, hc, hi, waitStep_quiet tmax _ s ht,
        hs]
    have harith : m + 1 + fuel = m + fuel + 1 := by omega
    rw [harith, step, ih (i + 1) fuel s hflag hrun ?_,
      show i + 1 + m = i + (m + 1) from by omega]
    intro j hj
    have := hq (j + 1) (by omega)
    rwa [show i + (j + 1) = i + 1 + j from by omega] at this

/-- After the deadline has passed, the wait loop with no completion signal
and no interruption exits within two further iterations, after at least
one cancel-with-restart that hands the coordinator a fresh pid, with the
shared running flag forced false. -/
theorem waitLoop_timeout_exit (T : Nat) (elapsed : Nat → Nat) (i : Nat)
    (s : WaitState) (fuel : Nat) (hfuel : 3 ≤ fuel) (hflag : s.flag = true)
    (hpid : s.pid < s.nextPid)
    (hT : ∀ j, T < elapsed (i + j)) :
    ∃ s1 n,
      waitLoop (some T) elapsed (fun _ => false) (fun _ => false) fuel i s =
        WaitOutcome.finished s1 n ∧
      s1.running = false ∧ s.cancels < s1.cancels ∧ s.pid < s1.pid ∧
      n ≤ i + 2 := by
  obtain ⟨g, rfl⟩ : ∃ g, fuel = g + 1 + 1 + 1 := ⟨fuel - 3, by omega⟩
  have h0 := hT 0
  rw [Nat.add_zero] at h0
  have h1 := hT 1
  have step1 :
      waitLoop (some T) elapsed (fun _ => false) (fun _ => false)
        (g + 1 + 1 + 1) i s =
      waitLoop (some T) elapsed (fun _ => false) (fun _ => false)
        (g + 1 + 1) (i + 1)
        ⟨s.running, false, s.nextPid, s.nextPid + 1, s.cancels + 1⟩ := by
    rw [waitLoop_succ, if_pos hflag]
    rw [waitStep_timeout_hit T (elapsed i) s h0]
  cases hr : s.running with
  | false =>
    refine ⟨⟨s.running, false, s.nextPid, s.nextPid + 1, s.cancels + 1⟩,
      i + 1, ?_, rfl, Nat.lt_succ_self _, hpid, by omega⟩
    rw [step1, waitLoop_flag_false _ _ _ _ _ _ _ (by rw [hr])]
  | true =>
    have step2 :
        waitLoop (some T) elapsed (fun _ => false) (fun _ => false)
          (g + 1 + 1) (i + 1)
          ⟨s.running, false, s.nextPid, s.nextPid + 1, s.cancels + 1⟩ =
        waitLoop (some T) elapsed (fun _ => false) (fun _ => false)
          (g + 1) (i + 1 + 1)
          ⟨false, false, s.nextPid + 1, s.nextPid + 2, s.cancels + 2⟩ := by
      rw [waitLoop_succ, if_pos (by rw [hr])]
      rw [waitStep_timeout_hit T (elapsed (i + 1)) _ h1]
    refine ⟨⟨false, false, s.nextPid + 1, s.nextPid + 2, s.cancels + 2⟩,
      i + 1 + 1, ?_, rfl, by show s.cancels < s.cancels + 2; omega,
      by show s.pid < s.nextPid + 1; omega, by omega⟩
    rw [step1, step2, waitLoop_flag_false _ _ _ _ _ _ _ rfl]

/-- C5: a run dispatched with a configured timeout T and no completion
signal (the monitor never clears the flag) and no interruption calls
cancel with restart, forces the running flag to false, exits the wait
loop, finishes within two loop iterations of the first sample past the
deadline (iteration k), and ends with a process id different from (fresh
relative to) the one the run started with; the pull then still runs, as
the source falls through to syncfrom after a timeout. -/
theorem timeout_forces_restart_and_bounded_exit {α : Type}
    (payload : List Char) (hLen : payload.length < 16 ^ 8) (T : Nat)
    (elapsed : Nat → Nat) (k fuel pid0 : Nat) (vars pulledVars : VarMap α)
    (hpre : ∀ j, j < k → elapsed j ≤ T)
    (hpost : ∀ j, k ≤ j → T < elapsed j)
    (hfuel : k + 3 ≤ fuel) :
    (nodeRun payload false (some T) elapsed (fun _ => false)
        (fun _ => false) fuel pid0 vars pulledVars).running = false ∧
    1 ≤ (nodeRun payload false (some T) elapsed (fun _ => false)
        (fun _ => false) fuel pid0 vars pulledVars).cancels ∧
    pid0 < (nodeRun payload false (some T) elapsed (fun _ => false)
        (fun _ => false) fuel pid0 vars pulledVars).pid ∧
    (nodeRun payload false (some T) elapsed (fun _ => false)
        (fun _ => false) fuel pid0 vars pulledVars).outcome =
      RunOutcome.ok (mergeVars vars pulledVars) ∧
    (nodeRun payload false (some T) elapsed (fun _ => false)
        (fun _ => false) fuel pid0 vars pulledVars).iters ≤ k + 2 := by
  obtain ⟨f, rfl⟩ : ∃ f, fuel = k + f := ⟨fuel - k, by omega⟩
  have hf : 3 ≤ f := by omega
  have hw := nodeWrite_ok payload hLen false
  rw [if_neg Bool.false_ne_true] at hw
  have hskip := waitLoop_skip (some T) elapsed (fun _ => false)
    (fun _ => false) k 0 f ⟨true, true, pid0, pid0 + 1, 0⟩ rfl rfl
    (fun j hj => ⟨rfl, rfl, fun T2 hT2 => by
      injection hT2 with hT2
      subst hT2
      rw [Nat.zero_add]
      exact hpre j hj⟩)
  obtain ⟨s1, n, heq, hrun, hcanc, hpid2, hn⟩ :=
    waitLoop_timeout_exit T elapsed (0 + k)
      ⟨true, true, pid0, pid0 + 1, 0⟩ f hf rfl (Nat.lt_succ_self pid0)
      (fun j => by
        rw [Nat.zero_add, Nat.add_comm k j]
        exact hpost (j + k) (Nat.le_add_left k j))
  have heq2 := hskip.trans heq
  simp only [nodeRun, hw]
  rw [if_neg (by norm_num), heq2]
  refine ⟨hrun, hcanc, hpid2, rfl, ?_⟩
  rw [Nat.zero_add] at hn
  exact hn

/-- Witness for timeout_forces_restart_and_bounded_exit with timeout 5,
every sample already past the deadline (k = 0). -/
theorem timeout_forces_restart_and_bounded_exit_witness :
    (['s'] : List Char).length < 16 ^ 8 ∧
    (∀ j : Nat, j < 0 → (fun _ : Nat => 6) j ≤ 5) ∧
    (∀ j : Nat, 0 ≤ j → 5 < (fun _ : Nat => 6) j) ∧
    0 + 3 ≤ 3 ∧
    ((nodeRun ['s'] false (some 5) (fun _ => 6) (fun _ => false)
        (fun _ => false) 3 0 (VarMap.emp (α := Nat)) VarMap.emp).running =
        false ∧
      1 ≤ (nodeRun ['s'] false (some 5) (fun _ => 6) (fun _ => false)
        (fun _ => false) 3 0 (VarMap.emp (α := Nat)) VarMap.emp).cancels ∧
      0 < (nodeRun ['s'] false (some 5) (fun _ => 6) (fun _ => false)
        (fun _ => false) 3 0 (VarMap.emp (α := Nat)) VarMap.emp).pid ∧
      (nodeRun ['s'] false (some 5) (fun _ => 6) (fun _ => false)
        (fun _ => false) 3 0 (VarMap.emp (α := Nat)) VarMap.emp).outcome =
        RunOutcome.ok (mergeVars VarMap.emp VarMap.emp) ∧
      (nodeRun ['s'] false (some 5) (fun _ => 6) (fun _ => false)
        (fun _ => false) 3 0 (VarMap.emp (α := Nat)) VarMap.emp).iters ≤
        0 + 2) :=
  ⟨by norm_num, fun j hj => absurd hj (by omega), fun j _ => by norm_num,
    by norm_num,
    timeout_forces_restart_and_bounded_exit ['s'] (by norm_num) 5
      (fun _ => 6) 0 3 0 VarMap.emp VarMap.emp
      (fun j hj => absurd hj (by omega)) (fun j _ => by norm_num)
      (by norm_num)⟩

/-- C6: a KeyboardInterrupt arriving at loop iteration k of an active run
(the loop having been quiet before) makes the coordinator cancel with
restart (one cancel, fresh pid), force the running flag false, skip the
variable pull, and re-raise the interruption to the caller. -/
theorem interrupt_cancels_restarts_skips_pull {α : Type}
    (payload : List Char) (hLen : payload.length < 16 ^ 8)
    (tmax : Option Nat) (elapsed : Nat → Nat) (clears intr : Nat → Bool)
    (k fuel pid0 : Nat) (vars pulledVars : VarMap α)
    (hq : ∀ j, j < k → clears j = false ∧ intr j = false ∧
      (∀ T, tmax = some T → elapsed j ≤ T))
    (hintr : intr k = true) (hfuel : k + 1 ≤ fuel) :
    nodeRun payload false tmax elapsed clears intr fuel pid0 vars
        pulledVars =
      { outcome := RunOutcome.interrupted, running := false,
        pid := pid0 + 1, cancels := 1, pulled := false,
        iters := k + 1 } := by
  obtain ⟨f, rfl⟩ : ∃ f, fuel = k + (f + 1) := ⟨fuel - k - 1, by omega⟩
  have hw := nodeWrite_ok payload hLen false
  rw [if_neg Bool.false_ne_true] at hw
  have hskip := waitLoop_skip tmax elapsed clears intr k 0 (f + 1)
    ⟨true, true, pid0, pid0 + 1, 0⟩ rfl rfl
    (fun j hj => by
      rw [Nat.zero_add]
      exact hq j hj)
  have hloop : waitLoop tmax elapsed clears intr (f + 1) (0 + k)
      ⟨true, true, pid0, pid0 + 1, 0⟩ =
      WaitOutcome.interrupted ⟨true, false, pid0 + 1, pid0 + 2, 1⟩
        (0 + k + 1) := by
    rw [waitLoop_succ, if_pos rfl, Nat.zero_add, hintr, waitStep_intr]
  simp only [nodeRun, hw]
  rw [if_neg (by norm_num), hskip, hloop]
  rw [Nat.zero_add]

/-- Witness for interrupt_cancels_restarts_skips_pull with the interrupt
arriving at the first loop iteration. -/
theorem interrupt_cancels_restarts_skips_pull_witness :
    (['s'] : List Char).length < 16 ^ 8 ∧
    (∀ j : Nat, j < 0 → (fun _ : Nat => false) j = false ∧
      (fun _ : Nat => true) j = false ∧
      (∀ T, (none : Option Nat) = some T → (fun _ : Nat => 0) j ≤ T)) ∧
    (fun _ : Nat => true) 0 = true ∧
    0 + 1 ≤ 1 ∧
    nodeRun ['s'] false none (fun _ => 0) (fun _ => false) (fun _ => true)
        1 3 (VarMap.emp (α := Nat)) VarMap.emp =
      { outcome := RunOutcome.interrupted, running := false,
        pid := 3 + 1, cancels := 1, pulled := false, iters := 0 + 1 } :=
  ⟨by norm_num, fun j hj => absurd hj (by omega), rfl, by norm_num,
    interrupt_cancels_restarts_skips_pull ['s'] (by norm_num) none
      (fun _ => 0) (fun _ => false) (fun _ => true) 0 1 3 VarMap.emp
      VarMap.emp (fun j hj => absurd hj (by omega)) rfl (by norm_num)⟩

/-- C7: an I/O failure during the frame write is reported to the caller
as the failure indicator -1 (and Node.run in turn returns None instead of
raising), the run is aborted with no wait-loop iteration and no variable
pull, and the node process is cancelled and restarted.  The conclusion
holds for every wait-loop environment, which exhibits that the wait loop
is never consulted. -/
theorem write_failure_reported_aborts_restarts {α : Type}
    (payload : List Char) (hLen : payload.length < 16 ^ 8)
    (tmax : Option Nat) (elapsed : Nat → Nat) (clears intr : Nat → Bool)
    (fuel pid0 : Nat) (vars pulledVars : VarMap α) :
    (nodeWrite payload true).retCode = -1 ∧
    (nodeWrite payload true).cancelled = true ∧
    (nodeWrite payload true).restarted = true ∧
    nodeRun payload true tmax elapsed clears intr fuel pid0 vars
        pulledVars =
      { outcome := RunOutcome.writeFailed, running := false,
        pid := pid0 + 1, cancels := 1, pulled := false, iters := 0 } := by
  have hw := nodeWrite_ok payload hLen true
  rw [if_pos rfl] at hw
  refine ⟨by rw [hw], by rw [hw], by rw [hw], ?_⟩
  simp [nodeRun, hw]

/-- Witness for write_failure_reported_aborts_restarts at a one-character
payload. -/
theorem write_failure_reported_aborts_restarts_witness :
    (['s'] : List Char).length < 16 ^ 8 ∧
    ((nodeWrite ['s'] true).retCode = -1 ∧
      (nodeWrite ['s'] true).cancelled = true ∧
      (nodeWrite ['s'] true).restarted = true ∧
      nodeRun ['s'] true none (fun _ => 0) (fun _ => false)
          (fun _ => false) 2 4 (VarMap.emp (α := Nat)) VarMap.emp =
        { outcome := RunOutcome.writeFailed, running := false,
          pid := 4 + 1, cancels := 1, pulled := false, iters := 0 }) :=
  ⟨by norm_num,
    write_failure_reported_aborts_restarts ['s'] (by norm_num) none
      (fun _ => 0) (fun _ => false) (fun _ => false) 2 4 VarMap.emp
      VarMap.emp⟩

/-- C8 counterexample: the caller-visible shared state (the running flag,
the only variable the monitor shares with the coordinator) after the
monitor handles a process exit equals the state after it handles a
completion line: both are false, so the code exposes no flag that lets the
caller distinguish the two, contradicting the claim. -/
theorem exit_vs_done_indistinguishable :
    callerVisibleRunState (monitorStep true "" ParseOutcome.fail true) =
      callerVisibleRunState
        (monitorStep false "\x7b\"type\": \"done\"\x7d"
          (ParseOutcome.ok "done") true) ∧
    (monitorStep true "" ParseOutcome.fail true).runningAfter = false := by
  constructor <;> decide

/-- C8 amended: a process exit during an active run unblocks the waiting
coordinator identically to a completion signal - the monitor acquires the
write lock and forces the running flag false in both cases - but no
distinct flag is exposed: the caller-visible shared state after a process
exit is identical to the state after a completion line, whatever the line
content, parse outcome and prior flag value. -/
theorem exit_unblocks_like_done (running : Bool) (raw done_raw : String)
    (parse : ParseOutcome) (hdone : done_raw ≠ "") :
    (monitorStep true raw parse running).runningAfter = false ∧
    (monitorStep true raw parse running).usedWriteLock = true ∧
    callerVisibleRunState (monitorStep true raw parse running) =
      callerVisibleRunState
        (monitorStep false done_raw (ParseOutcome.ok "done") running) := by
  refine ⟨by simp [monitorStep], by simp [monitorStep], ?_⟩
  simp [monitorStep, callerVisibleRunState, hdone]

/-- Witness for exit_unblocks_like_done at a concrete completion line. -/
theorem exit_unblocks_like_done_witness :
    ("\x7b\"type\": \"done\"\x7d" : String) ≠ "" ∧
    ((monitorStep true "" ParseOutcome.fail true).runningAfter = false ∧
      (monitorStep true "" ParseOutcome.fail true).usedWriteLock = true ∧
      callerVisibleRunState (monitorStep true "" ParseOutcome.fail true) =
        callerVisibleRunState
          (monitorStep false "\x7b\"type\": \"done\"\x7d"
            (ParseOutcome.ok "done") true)) :=
  ⟨by decide,
    exit_unblocks_like_done true "" "\x7b\"type\": \"done\"\x7d"
      ParseOutcome.fail (by decide)⟩

/-- C9: when the wait loop exits normally (COMPLETED via the monitor, or
TIMED_OUT - both reach line 313), the variables pulled by syncfrom are
merged into the caller's set - pulled names overwrite same-named entries
and add new ones, names not returned keep their caller binding - and the
merged set is what run returns. -/
theorem run_merges_pulled_variables {α : Type} (payload : List Char)
    (hLen : payload.length < 16 ^ 8) (tmax : Option Nat)
    (elapsed : Nat → Nat) (clears intr : Nat → Bool) (fuel pid0 : Nat)
    (vars pulledVars : VarMap α) (s : WaitState) (n : Nat)
    (hfin : waitLoop tmax elapsed clears intr fuel 0
        ⟨true, true, pid0, pid0 + 1, 0⟩ = WaitOutcome.finished s n) :
    (nodeRun payload false tmax elapsed clears intr fuel pid0 vars
        pulledVars).outcome = RunOutcome.ok (mergeVars vars pulledVars) ∧
    (nodeRun payload false tmax elapsed clears intr fuel pid0 vars
        pulledVars).pulled = true ∧
    (∀ key v, pulledVars key = some v →
      mergeVars vars pulledVars key = some v) ∧
    (∀ key, pulledVars key = none →
      mergeVars vars pulledVars key = vars key) := by
  have hw := nodeWrite_ok payload hLen false
  rw [if_neg Bool.false_ne_true] at hw
  refine ⟨?_, ?_, ?_, ?_⟩
  · simp only [nodeRun, hw]
    rw [if_neg (by norm_num), hfin]
  · simp only [nodeRun, hw]
    rw [if_neg (by norm_num), hfin]
  · intro key v h
    simp [mergeVars, h]
  · intro key h
    simp [mergeVars, h]

/-- Witness for run_merges_pulled_variables: the monitor clears the flag
at the first sample, the pull returns x = 5 while the caller holds y = 1
and an older x = 0. -/
theorem run_merges_pulled_variables_witness :
    (['s'] : List Char).length < 16 ^ 8 ∧
    waitLoop none (fun _ => 0) (fun _ => true) (fun _ => false) 2 0
        ⟨true, true, 0, 0 + 1, 0⟩ =
      WaitOutcome.finished ⟨false, false, 0, 1, 0⟩ 1 ∧
    ((nodeRun ['s'] false none (fun _ => 0) (fun _ => true)
        (fun _ => false) 2 0
        (VarMap.update (VarMap.update VarMap.emp "y" 1) "x" 0)
        (VarMap.update VarMap.emp "x" 5)).outcome =
      RunOutcome.ok
        (mergeVars (VarMap.update (VarMap.update VarMap.emp "y" 1) "x" 0)
          (VarMap.update VarMap.emp "x" 5)) ∧
    (nodeRun ['s'] false none (fun _ => 0) (fun _ => true)
        (fun _ => false) 2 0
        (VarMap.update (VarMap.update VarMap.emp "y" 1) "x" 0)
        (VarMap.update VarMap.emp "x" 5)).pulled = true ∧
    (∀ key v, VarMap.update VarMap.emp "x" 5 key = some v →
      mergeVars (VarMap.update (VarMap.update VarMap.emp "y" 1) "x" 0)
        (VarMap.update VarMap.emp "x" 5) key = some v) ∧
    (∀ key, VarMap.update VarMap.emp "x" (5 : Nat) key = none →
      mergeVars (VarMap.update (VarMap.update VarMap.emp "y" 1) "x" 0)
        (VarMap.update VarMap.emp "x" 5) key =
        VarMap.update (VarMap.update VarMap.emp "y" 1) "x" 0 key)) :=
  ⟨by norm_num, rfl,
    run_merges_pulled_variables ['s'] (by norm_num) none (fun _ => 0)
      (fun _ => true) (fun _ => false) 2 0
      (VarMap.update (VarMap.update VarMap.emp "y" 1) "x" 0)
      (VarMap.update VarMap.emp "x" 5) ⟨false, false, 0, 1, 0⟩ 1 rfl⟩

/-- First call to Node.run with the vars argument omitted: the shared
default dict starts empty, the run completes and pulls x = 5, and the
merge loop writes that binding into the default object itself. -/
def defaultAfterFirstRun : VarMap Nat :=
  (nodeRunDefault ['s'] false none (fun _ => 0) (fun _ => true)
    (fun _ => false) 2 0 VarMap.emp (VarMap.update VarMap.emp "x" 5)).2

/-- Second call with the vars argument omitted: it receives the default
object as the first call left it and pulls nothing. -/
def secondDefaultedRun : RunResult Nat × VarMap Nat :=
  nodeRunDefault ['s'] false none (fun _ => 0) (fun _ => true)
    (fun _ => false) 2 0 defaultAfterFirstRun VarMap.emp

/-- C10: the default variable set of Node.run is one shared mutable
object: after a first defaulted call pulls x = 5, a second defaulted call
sees x = 5 in its starting variable set and returns a set still carrying
x = 5, so defaulted runs are not independent of one another. -/
theorem default_vars_shared_across_runs :
    defaultAfterFirstRun "x" = some 5 ∧
    ∃ vs : VarMap Nat,
      secondDefaultedRun.1.outcome = RunOutcome.ok vs ∧
      vs "x" = some 5 := by
  refine ⟨by rfl, mergeVars defaultAfterFirstRun VarMap.emp, by rfl, by rfl⟩

end Bifrost
